import Mathlib

/-!
Verification of the Ticket Dispatch & Escalation Engine of a multi-tenant
helpdesk backend.

The definitions below are shallow embeddings of the TypeScript sources:

* `src/utils/autoAssignAgent.ts` — priority-based automatic assignment
  (`autoAssignAgent`);
* the escalation service (`getLeastLoadedAgent`, `runEscalation`);
* `src/routes/tickets.ts` — the `PUT /api/tickets/:id` handler
  (`updateTicket` below) and the `POST /api/tickets/:id/client-feedback`
  handler (`clientFeedbackSubmit` below);
* `src/utils/agentPermissions.ts` (`getPermissionsForLevel`, `hasPermission`).

Database documents are modelled as Lean structures; the collections read by a
handler are passed in as lists; `Agent.findOne({userId})`-then-`save()`
becomes an update of the first matching list element.  Mongo ObjectIds are
modelled as `Nat`, dates as `Int` milliseconds, and the hex feedback token as
a `Nat`.  Each handler's early `return res.status(...)` paths become `.error`
results of an `Except`; an `.error` result means the handler returned before
any `save()`, so the stored documents are unchanged.
-/

namespace Helpdesk

/-- The `agentLevel` field of the Agent model (`src/models/Agent.ts`). -/
inductive AgentLevel where
  | agent
  | seniorAgent
  | supervisor
  | management
deriving DecidableEq, Repr

/-- Ticket `priority` (`src/models/Ticket.ts`). -/
inductive Priority where
  | Critical
  | High
  | Medium
  | Low
deriving DecidableEq, Repr

/-- Ticket `status` (`src/models/Ticket.ts`). -/
inductive Status where
  | Open
  | InProgress
  | Resolved
  | Closed
deriving DecidableEq, Repr

/-- The verdicts the client-feedback endpoint accepts
(`validFeedback = ["satisfied", "dissatisfied", "no_response"]`). -/
inductive Feedback where
  | satisfied
  | dissatisfied
  | no_response
deriving DecidableEq, Repr

/-- An Agent document: exactly the fields the engine reads or writes.
`ticketsAssigned` is the open-ticket counter, `resolved` the resolved
counter. -/
structure AgentRec where
  userId : Nat
  tenantId : Nat
  agentLevel : AgentLevel
  ticketsAssigned : Nat
  resolved : Nat
deriving DecidableEq, Repr

/-- A Ticket document: the fields the dispatch/escalation engine touches.
`escalationLevel` and `escalatedAt` are optional in the schema (the service
reads them as `ticket.escalationLevel || "agent"` and
`ticket.escalatedAt || ticket.created`); `feedbackToken` models
`metadata.feedbackToken`. -/
structure TicketRec where
  tenantId : Nat
  priority : Priority
  status : Status
  agentId : Option Nat
  escalationLevel : Option AgentLevel
  escalatedAt : Option Int
  created : Int
  updated : Int
  assignedAt : Option Int
  resolvedBy : Option Nat
  resolvedAt : Option Int
  clientFeedback : Option Feedback
  clientFeedbackAt : Option Int
  clientFeedbackNote : Option Nat
  feedbackToken : Option Nat
deriving DecidableEq, Repr

/-! ### `src/utils/autoAssignAgent.ts` -/

/-- The `Ticket.find({tenantId, status: {$nin: ["Resolved","Closed"]},
agentId: {$exists: true}})` query in `autoAssignAgent`. -/
def unresolvedAssigned (tickets : List TicketRec) (tenantId : Nat) :
    List TicketRec :=
  tickets.filter fun t =>
    t.tenantId == tenantId &&
    !(t.status == Status.Resolved) && !(t.status == Status.Closed) &&
    t.agentId.isSome

/-- The value `ticketCounts[uid]` after the counting loop in
`autoAssignAgent`: the number of unresolved tickets assigned to `uid`
(a missing key reads as `0` via `|| 0`). -/
def ticketCountFor (unresolved : List TicketRec) (uid : Nat) : Nat :=
  (unresolved.filter fun t => t.agentId == some uid).length

/-- The priority filter of `autoAssignAgent`: Critical → supervisors first,
falling back to senior-agents; High → senior-agents or supervisors;
Medium/Low (or no priority) → every available agent. -/
def candidateAgents (availableAgents : List AgentRec)
    (priority : Option Priority) : List AgentRec :=
  match priority with
  | some Priority.Critical =>
    let sup := availableAgents.filter fun a =>
      a.agentLevel == AgentLevel.supervisor
    if sup.isEmpty then
      availableAgents.filter fun a => a.agentLevel == AgentLevel.seniorAgent
    else sup
  | some Priority.High =>
    availableAgents.filter fun a =>
      a.agentLevel == AgentLevel.seniorAgent ||
      a.agentLevel == AgentLevel.supervisor
  | _ => availableAgents

/-- The load-balancing loop of `autoAssignAgent` (and the
`sort({ticketsAssigned: 1})`-then-first of the escalation service's
`getLeastLoadedAgent`, with a stable sort): start from the first candidate
and replace it only on a strictly smaller key, so ties keep the earlier
agent. -/
def selectLeastBy (key : AgentRec → Nat) (first : AgentRec)
    (l : List AgentRec) : AgentRec :=
  l.foldl (fun sel a => if key a < key sel then a else sel) first

/-- Embedding of `autoAssignAgent(tenantId, priority)` from `src/utils/autoAssignAgent.ts`.
`tenantAgents` is the tenant's Agent query result and `tickets` the Ticket
collection; the function returns the chosen agent's `userId`.  (In the
source `availableAgents` is always the whole of `tenantAgents` — the
"always-online" behavior — so the dead `availableAgents.length === 0`
branch is unreachable.) -/
def autoAssignAgent (tenantAgents : List AgentRec) (tickets : List TicketRec)
    (tenantId : Nat) (priority : Option Priority) : Option Nat :=
  if tenantAgents.isEmpty then none
  else
    let availableAgents := tenantAgents
    let counts := fun a : AgentRec =>
      ticketCountFor (unresolvedAssigned tickets tenantId) a.userId
    let cands := candidateAgents availableAgents priority
    match cands with
    | [] => none
    | c :: _ => some (selectLeastBy counts c cands).userId

/-- The per-agent load used by the selector: `ticketCounts[a.userId]`. -/
def loadOf (tickets : List TicketRec) (tenantId : Nat) (a : AgentRec) : Nat :=
  ticketCountFor (unresolvedAssigned tickets tenantId) a.userId

/-- The running minimum of `key` over `first :: l`, i.e. the value of the
`minTickets` variable at the end of the loop. -/
def minKey (key : AgentRec → Nat) (first : AgentRec)
    (l : List AgentRec) : Nat :=
  l.foldl (fun m a => min m (key a)) (key first)

/-! ### The escalation service (`getLeastLoadedAgent`, `runEscalation`) -/

/-- Milliseconds per hour: `1000 * 60 * 60`.  The service compares
`(now - escalatedAt) / 3600000 ≥ H`; over the reals with a positive divisor
this is exactly `now - escalatedAt ≥ H * 3600000`, which is how the check is
embedded below. -/
def msPerHour : Int := 3600000

/-- Embeds `Agent.findOne({userId})` — the first matching document — updated
by `f` and saved. -/
def updateFirstAgent (agents : List AgentRec) (uid : Nat)
    (f : AgentRec → AgentRec) : List AgentRec :=
  match agents with
  | [] => []
  | a :: rest =>
    if a.userId == uid then f a :: rest
    else a :: updateFirstAgent rest uid f

/-- The decrement pattern used throughout the engine:
`if (doc.ticketsAssigned > 0) { doc.ticketsAssigned = Math.max(0, doc.ticketsAssigned - 1); save }`. -/
def decrementAssigned (agents : List AgentRec) (uid : Nat) : List AgentRec :=
  updateFirstAgent agents uid fun a =>
    if a.ticketsAssigned > 0 then
      { a with ticketsAssigned := a.ticketsAssigned - 1 }
    else a

/-- The increment pattern: `doc.ticketsAssigned = (doc.ticketsAssigned || 0) + 1`. -/
def incrementAssigned (agents : List AgentRec) (uid : Nat) : List AgentRec :=
  updateFirstAgent agents uid fun a =>
    { a with ticketsAssigned := a.ticketsAssigned + 1 }

/-- Embedding of `getLeastLoadedAgent(tenantId, level)` of the escalation service:
the tenant's agents of the given level, sorted ascending by
`ticketsAssigned` (stable, so ties keep collection order), first one. -/
def getLeastLoadedAgent (agents : List AgentRec) (tenantId : Nat)
    (level : AgentLevel) : Option Nat :=
  let pool := agents.filter fun a =>
    a.tenantId == tenantId && a.agentLevel == level
  match pool with
  | [] => none
  | c :: rest => some (selectLeastBy (fun a => a.ticketsAssigned) c (c :: rest)).userId

/-- The result of one escalation pass over a single ticket. -/
structure EscStep where
  agents : List AgentRec
  ticket : TicketRec
  toSenior : Nat
  toSupervisor : Nat
deriving DecidableEq, Repr

/-- The body of the `for (const ticket of unresolved)` loop in
`runEscalation`: reads `escalationLevel || "agent"` and
`escalatedAt || created`, escalates `agent → senior-agent` after
`hoursToSenior` and `senior-agent → supervisor` after `hoursToSupervisor`,
reassigning to the least-loaded agent of the target level (decrement old,
increment new) and resetting the escalation timestamp; if the target pool is
empty the ticket is left untouched. -/
def escalateTicket (hoursToSenior hoursToSupervisor now : Int)
    (agents : List AgentRec) (t : TicketRec) : EscStep :=
  let currentLevel := t.escalationLevel.getD AgentLevel.agent
  let escalatedAt := t.escalatedAt.getD t.created
  if currentLevel = AgentLevel.agent then
    if now - escalatedAt ≥ hoursToSenior * msPerHour then
      match getLeastLoadedAgent agents t.tenantId AgentLevel.seniorAgent with
      | some newAgentId =>
        let oldAgents := match t.agentId with
          | some oldId => decrementAssigned agents oldId
          | none => agents
        ⟨incrementAssigned oldAgents newAgentId,
         { t with agentId := some newAgentId,
                  escalationLevel := some AgentLevel.seniorAgent,
                  escalatedAt := some now, assignedAt := some now,
                  updated := now },
         1, 0⟩
      | none => ⟨agents, t, 0, 0⟩
    else ⟨agents, t, 0, 0⟩
  else if currentLevel = AgentLevel.seniorAgent then
    if now - escalatedAt ≥ hoursToSupervisor * msPerHour then
      match getLeastLoadedAgent agents t.tenantId AgentLevel.supervisor with
      | some newAgentId =>
        let oldAgents := match t.agentId with
          | some oldId => decrementAssigned agents oldId
          | none => agents
        ⟨incrementAssigned oldAgents newAgentId,
         { t with agentId := some newAgentId,
                  escalationLevel := some AgentLevel.supervisor,
                  escalatedAt := some now, assignedAt := some now,
                  updated := now },
         0, 1⟩
      | none => ⟨agents, t, 0, 0⟩
    else ⟨agents, t, 0, 0⟩
  else ⟨agents, t, 0, 0⟩

/-- The scan filter of `runEscalation`:
`status ∈ {Open, "In Progress"}` and `agentId` exists. -/
def isUnresolvedAssigned (t : TicketRec) : Bool :=
  (t.status == Status.Open || t.status == Status.InProgress) && t.agentId.isSome

/-- The state after a full `runEscalation()` call. -/
structure RunResult where
  agents : List AgentRec
  tickets : List TicketRec
  escalatedToSenior : Nat
  escalatedToSupervisor : Nat
deriving DecidableEq, Repr

/-- Embedding of `runEscalation()` from the escalation service: scan every ticket,
process the unresolved assigned ones in order (agent-counter writes made for
one ticket are visible while processing the next), and return the escalation
tallies.  Thresholds come from `ESCALATION_TO_SENIOR_HOURS` (default 24) and
`ESCALATION_TO_SUPERVISOR_HOURS` (default 48). -/
def runEscalation (hoursToSenior hoursToSupervisor now : Int)
    (agents : List AgentRec) (tickets : List TicketRec) : RunResult :=
  tickets.foldl
    (fun acc t =>
      if isUnresolvedAssigned t then
        let r := escalateTicket hoursToSenior hoursToSupervisor now acc.agents t
        ⟨r.agents, acc.tickets ++ [r.ticket],
         acc.escalatedToSenior + r.toSenior,
         acc.escalatedToSupervisor + r.toSupervisor⟩
      else
        ⟨acc.agents, acc.tickets ++ [t], acc.escalatedToSenior,
         acc.escalatedToSupervisor⟩)
    ⟨agents, [], 0, 0⟩

/-! ### `src/utils/agentPermissions.ts` -/

/-- User roles (`src/models/User.ts`). -/
inductive Role where
  | superAdmin
  | tenantAdmin
  | agent
  | customer
deriving DecidableEq, Repr

/-- The authenticated caller (`req.user`). -/
structure UserRec where
  userId : Nat
  role : Role
  tenantId : Option Nat
deriving DecidableEq, Repr

/-- The permission record returned by `getPermissionsForLevel`. -/
structure AgentPermissions where
  canViewTickets : Bool
  canWorkOnTickets : Bool
  canCloseTickets : Bool
  canAssignTickets : Bool
  canTrackAgents : Bool
  canManageAgents : Bool
  canViewDashboard : Bool
deriving DecidableEq, Repr

/-- Embeds `getPermissionsForLevel(level)` — the capability table, verbatim. -/
def getPermissionsForLevel : AgentLevel → AgentPermissions
  | AgentLevel.agent =>
    ⟨true, true, true, false, false, false, true⟩
  | AgentLevel.seniorAgent =>
    ⟨true, true, true, false, false, false, true⟩
  | AgentLevel.supervisor =>
    ⟨true, true, true, true, true, true, true⟩
  | AgentLevel.management =>
    ⟨false, false, false, false, false, false, true⟩

/-- Embeds `getAgentLevel(userId)`: the `agentLevel` of the first Agent document
with this `userId`, if any. -/
def getAgentLevel (agents : List AgentRec) (userId : Nat) :
    Option AgentLevel :=
  (agents.find? fun a => a.userId == userId).map (·.agentLevel)

/-- Embeds `hasPermission(user, permission)`: non-`agent` roles (super-admin,
tenant-admin, customer) get every permission; an `agent`-role user is looked
up in the Agent collection and checked against the capability table. -/
def hasPermission (agents : List AgentRec) (user : UserRec)
    (permission : AgentPermissions → Bool) : Bool :=
  if user.role ≠ Role.agent then true
  else
    match getAgentLevel agents user.userId with
    | none => false
    | some lvl => permission (getPermissionsForLevel lvl)

/-! ### `PUT /api/tickets/:id` (`src/routes/tickets.ts`) -/

/-- The request body fields of `PUT /api/tickets/:id` that the handler
inspects; `none` models an absent key. -/
structure UpdateBody where
  status : Option Status
  agentId : Option Nat
  clientFeedback : Option Feedback
  clientFeedbackNote : Option Nat
deriving DecidableEq, Repr

/-- The early-return error responses of the ticket routes.
`forbiddenTenant` is the 403 cross-tenant check, `forbiddenAssign` the 403
"Only Supervisors can manually assign or transfer tickets",
`closedWithoutFeedback` the 400 "Ticket cannot be closed without client
feedback", `invalidToken` the 401 "Invalid or expired feedback link", and
`invalidFeedback` the 400 "Invalid feedback" verdict check. -/
inductive ApiError where
  | notFound
  | forbiddenTenant
  | forbiddenAssign
  | closedWithoutFeedback
  | invalidToken
  | invalidFeedback
deriving DecidableEq, Repr

/-- Embeds `Object.assign(ticket, req.body)`: overwrite each field present in the
body (plus the unconditional `ticket.updated = new Date()`). -/
def assignBody (t : TicketRec) (body : UpdateBody) (now : Int) : TicketRec :=
  { t with
    status := body.status.getD t.status,
    agentId := if body.agentId.isSome then body.agentId else t.agentId,
    clientFeedback :=
      if body.clientFeedback.isSome then body.clientFeedback
      else t.clientFeedback,
    clientFeedbackNote :=
      if body.clientFeedbackNote.isSome then body.clientFeedbackNote
      else t.clientFeedbackNote,
    updated := now }

/-- The `PUT /api/tickets/:id` handler (second revision, the one carrying
the feedback gate).  `agents` is the Agent collection, `ticket` the stored
document, `freshToken` the `crypto.randomBytes(24).toString("hex")` value
drawn when a ticket transitions to Resolved.  An `.error` result is an early
`return` before any `save()`: the stored ticket and agents are unchanged. -/
def updateTicket (agents : List AgentRec) (ticket : TicketRec)
    (user : UserRec) (body : UpdateBody) (now : Int) (freshToken : Nat) :
    Except ApiError (TicketRec × List AgentRec) :=
  if user.role ≠ Role.superAdmin ∧ user.tenantId ≠ some ticket.tenantId then
    Except.error ApiError.forbiddenTenant
  else
    let oldStatus := ticket.status
    let oldAgent := ticket.agentId
    let newAgent := body.agentId
    let agentChanged := newAgent.isSome ∧ newAgent ≠ oldAgent
    if agentChanged ∧
        ¬ hasPermission agents user (·.canAssignTickets) = true then
      Except.error ApiError.forbiddenAssign
    else
      let closing := body.status = some Status.Closed ∧
        oldStatus ≠ Status.Closed
      let canForceClose := user.role = Role.superAdmin ∨
        user.role = Role.tenantAdmin
      let hasFeedback := ticket.clientFeedback.isSome ∨
        body.clientFeedback.isSome
      if closing ∧ ¬ canForceClose ∧ ¬ hasFeedback then
        Except.error ApiError.closedWithoutFeedback
      else
        let t0 :=
          if closing ∧ body.clientFeedback.isSome then
            { ticket with clientFeedback := body.clientFeedback,
                          clientFeedbackAt := some now,
                          clientFeedbackNote := body.clientFeedbackNote }
          else ticket
        let t1 := assignBody t0 body now
        let statusChanged := body.status.isSome ∧ body.status ≠ some oldStatus
        let afterStatus : TicketRec × List AgentRec :=
          if statusChanged then
            match body.status with
            | some newStatus =>
              if newStatus = Status.Resolved ∨ newStatus = Status.Closed then
                let t2 := { t1 with resolvedBy := some user.userId,
                                    resolvedAt := some now }
                let t3 :=
                  if newStatus = Status.Resolved then
                    { t2 with feedbackToken := some freshToken }
                  else t2
                let agents1 := match t1.agentId with
                  | some aid =>
                    updateFirstAgent agents aid fun ag =>
                      let ag1 := { ag with resolved := ag.resolved + 1 }
                      if ag1.ticketsAssigned > 0 then
                        { ag1 with ticketsAssigned := ag1.ticketsAssigned - 1 }
                      else ag1
                  | none => agents
                (t3, agents1)
              else
                let agents1 :=
                  if oldStatus = Status.Resolved ∨ oldStatus = Status.Closed
                  then
                    match t1.agentId with
                    | some aid =>
                      updateFirstAgent agents aid fun ag =>
                        let ag1 :=
                          if ag.resolved > 0 then
                            { ag with resolved := ag.resolved - 1 }
                          else ag
                        { ag1 with ticketsAssigned := ag1.ticketsAssigned + 1 }
                    | none => agents
                  else agents
                ({ t1 with resolvedBy := none, resolvedAt := none }, agents1)
            | none => (t1, agents)
          else (t1, agents)
        let afterAgent : TicketRec × List AgentRec :=
          if agentChanged then
            let t4 := { afterStatus.1 with assignedAt := some now }
            let agents2 := match oldAgent with
              | some oid => decrementAssigned afterStatus.2 oid
              | none => afterStatus.2
            let agents3 := match newAgent with
              | some nid => incrementAssigned agents2 nid
              | none => agents2
            (t4, agents3)
          else afterStatus
        Except.ok afterAgent

/-! ### `POST /api/tickets/:id/client-feedback` (`src/routes/tickets.ts`) -/

/-- The `POST /api/tickets/:id/client-feedback` handler, acting on the
stored ticket.  `feedback = none` models a missing or unlisted verdict
string (rejected by the `validFeedback.includes` check).  The handler never
reads or writes the Agent collection and never clears
`metadata.feedbackToken`, `resolvedBy` or `resolvedAt`. -/
def clientFeedbackSubmit (t : TicketRec) (feedbackToken : Nat)
    (feedback : Option Feedback) (note : Option Nat) (now : Int) :
    Except ApiError TicketRec :=
  match t.feedbackToken with
  | none => Except.error ApiError.invalidToken
  | some storedToken =>
    if feedbackToken ≠ storedToken then Except.error ApiError.invalidToken
    else
      match feedback with
      | none => Except.error ApiError.invalidFeedback
      | some fb =>
        let t1 := { t with clientFeedback := some fb,
                           clientFeedbackAt := some now,
                           clientFeedbackNote := note }
        let t2 :=
          match fb with
          | Feedback.satisfied =>
            { t1 with status := Status.Closed, resolvedAt := some now }
          | Feedback.no_response =>
            { t1 with status := Status.Closed, resolvedAt := some now }
          | Feedback.dissatisfied =>
            { t1 with status := Status.InProgress, clientFeedback := none,
                      clientFeedbackAt := none }
        Except.ok { t2 with updated := now }

/-- The client-feedback route at the level of the whole engine state: the
handler touches only the ticket document, so the Agent collection passes
through unchanged (no `Agent` query appears anywhere in the route). -/
def clientFeedbackRoute (agents : List AgentRec) (t : TicketRec)
    (feedbackToken : Nat) (feedback : Option Feedback) (note : Option Nat)
    (now : Int) : Except ApiError (TicketRec × List AgentRec) :=
  (clientFeedbackSubmit t feedbackToken feedback note now).map
    fun t' => (t', agents)

/-! ### The workload-counter invariant -/

/-- Sum of `ticketsAssigned` over the tenant's agents. -/
def sumAssignedCounters (agents : List AgentRec) (tenantId : Nat) : Nat :=
  (agents.filter fun a => a.tenantId == tenantId).foldl
    (fun s a => s + a.ticketsAssigned) 0

/-- Number of the tenant's tickets with status Open or In Progress and an
assigned agent. -/
def countOpenAssigned (tickets : List TicketRec) (tenantId : Nat) : Nat :=
  (tickets.filter fun t =>
    t.tenantId == tenantId &&
    (t.status == Status.Open || t.status == Status.InProgress) &&
    t.agentId.isSome).length

/-- The spec's per-tenant invariant: the agents' open-ticket counters sum to
the number of open/in-progress assigned tickets of the tenant. -/
def loadInvariant (agents : List AgentRec) (tickets : List TicketRec)
    (tenantId : Nat) : Prop :=
  sumAssignedCounters agents tenantId = countOpenAssigned tickets tenantId

instance {agents : List AgentRec} {tickets : List TicketRec}
    {tenantId : Nat} : Decidable (loadInvariant agents tickets tenantId) :=
  inferInstanceAs (Decidable (sumAssignedCounters agents tenantId =
    countOpenAssigned tickets tenantId))

/-! ### Properties of the selection loop -/

theorem minKey_cons (key : AgentRec → Nat) (c a : AgentRec)
    (l : List AgentRec) :
    minKey key c (a :: l) =
      if key a < key c then minKey key a l else minKey key c l := by
  unfold minKey
  simp only [List.foldl_cons]
  rcases Nat.lt_or_ge (key a) (key c) with h | h
  · rw [if_pos h]
    congr 1
    omega
  · rw [if_neg (by omega)]
    congr 1
    omega

theorem minKey_le_first (key : AgentRec → Nat) (first : AgentRec)
    (l : List AgentRec) : minKey key first l ≤ key first := by
  induction l generalizing first with
  | nil => exact Nat.le_refl _
  | cons a l ih =>
    rw [minKey_cons]
    rcases Nat.lt_or_ge (key a) (key first) with h | h
    · rw [if_pos h]
      exact Nat.le_trans (ih a) (Nat.le_of_lt h)
    · rw [if_neg (by omega)]
      exact ih first

theorem minKey_le_mem (key : AgentRec → Nat) (first : AgentRec)
    (l : List AgentRec) : ∀ a ∈ l, minKey key first l ≤ key a := by
  induction l generalizing first with
  | nil => intro a ha; cases ha
  | cons b l ih =>
    intro a ha
    rw [minKey_cons]
    rcases List.mem_cons.mp ha with rfl | ha
    · rcases Nat.lt_or_ge (key a) (key first) with h | h
      · rw [if_pos h]; exact minKey_le_first key a l
      · rw [if_neg (by omega)]
        exact Nat.le_trans (minKey_le_first key first l) h
    · rcases Nat.lt_or_ge (key b) (key first) with h | h
      · rw [if_pos h]; exact ih b a ha
      · rw [if_neg (by omega)]; exact ih first a ha

theorem selectLeastBy_cons (key : AgentRec → Nat) (c a : AgentRec)
    (l : List AgentRec) :
    selectLeastBy key c (a :: l) =
      selectLeastBy key (if key a < key c then a else c) l := rfl

/-- The selection loop returns the first element of `first :: l` whose key
equals the running minimum: least-loaded wins, ties broken by input order. -/
theorem selectLeastBy_eq_find (key : AgentRec → Nat) (l : List AgentRec)
    (first : AgentRec) :
    (first :: l).find? (fun a => key a == minKey key first l) =
      some (selectLeastBy key first l) := by
  induction l generalizing first with
  | nil =>
    simp [selectLeastBy, minKey, List.find?]
  | cons a l ih =>
    rw [selectLeastBy_cons, minKey_cons]
    rcases Nat.lt_or_ge (key a) (key first) with h | h
    · rw [if_pos h, if_pos h]
      have hfirst : (key first == minKey key a l) = false := by
        have := minKey_le_first key a l
        simp only [beq_eq_false_iff_ne, ne_eq]
        omega
      rw [List.find?_cons, hfirst]
      exact ih a
    · rw [if_neg (by omega), if_neg (by omega)]
      have hm := ih first
      by_cases hc : key first = minKey key first l
      · have hpred : (key first == minKey key first l) = true := by
          simp [hc]
        rw [List.find?_cons, hpred]
        rw [List.find?_cons, hpred] at hm
        exact hm
      · have hlt : minKey key first l < key first :=
          Nat.lt_of_le_of_ne (minKey_le_first key first l) fun he =>
            hc he.symm
        have hpredf : (key first == minKey key first l) = false := by
          simp only [beq_eq_false_iff_ne, ne_eq]; omega
        have hpreda : (key a == minKey key first l) = false := by
          simp only [beq_eq_false_iff_ne, ne_eq]; omega
        rw [List.find?_cons, hpredf, List.find?_cons, hpreda]
        rw [List.find?_cons, hpredf] at hm
        exact hm

theorem selectLeastBy_mem (key : AgentRec → Nat) (first : AgentRec)
    (l : List AgentRec) : selectLeastBy key first l ∈ first :: l :=
  List.mem_of_find?_eq_some (selectLeastBy_eq_find key l first)

theorem selectLeastBy_key_eq_minKey (key : AgentRec → Nat) (first : AgentRec)
    (l : List AgentRec) :
    key (selectLeastBy key first l) = minKey key first l := by
  have h := List.find?_some (selectLeastBy_eq_find key l first)
  exact beq_iff_eq.mp h

theorem selectLeastBy_min (key : AgentRec → Nat) (first : AgentRec)
    (l : List AgentRec) :
    ∀ a ∈ first :: l, key (selectLeastBy key first l) ≤ key a := by
  intro a ha
  rw [selectLeastBy_key_eq_minKey key first l]
  rcases List.mem_cons.mp ha with rfl | ha
  · exact minKey_le_first key a l
  · exact minKey_le_mem key first l a ha

theorem find?_cons_dup {α} (p : α → Bool) (c : α) (l : List α) :
    (c :: c :: l).find? p = (c :: l).find? p := by
  cases hp : p c <;> simp [List.find?_cons, hp]

theorem candidateAgents_subset (l : List AgentRec) (p : Option Priority) :
    ∀ a ∈ candidateAgents l p, a ∈ l := by
  intro a ha
  rcases p with _ | pr
  · exact ha
  · cases pr with
    | Critical =>
      simp only [candidateAgents] at ha
      split at ha
      · exact (List.mem_filter.mp ha).1
      · exact (List.mem_filter.mp ha).1
    | High => exact (List.mem_filter.mp ha).1
    | Medium => exact ha
    | Low => exact ha

/-- Unfolding `autoAssignAgent` when it returns an agent: the candidate list
is non-empty and the result is the selection loop's output on it. -/
theorem autoAssign_eq_some (tenantAgents : List AgentRec)
    (tickets : List TicketRec) (tenantId : Nat) (priority : Option Priority)
    (uid : Nat)
    (h : autoAssignAgent tenantAgents tickets tenantId priority = some uid) :
    ∃ c rest, candidateAgents tenantAgents priority = c :: rest ∧
      uid = (selectLeastBy (loadOf tickets tenantId) c (c :: rest)).userId := by
  unfold autoAssignAgent at h
  split at h
  · exact absurd h (by simp)
  · cases hcc : candidateAgents tenantAgents priority with
    | nil =>
      simp only [hcc] at h
      exact Option.noConfusion h
    | cons c rest =>
      simp only [hcc] at h
      exact ⟨c, rest, rfl, (Option.some.inj h).symm⟩

/-- The non-empty branch of `autoAssignAgent`, forwards. -/
theorem autoAssign_eq_of_cands (tenantAgents : List AgentRec)
    (tickets : List TicketRec) (tenantId : Nat) (priority : Option Priority)
    (c : AgentRec) (rest : List AgentRec)
    (hc : candidateAgents tenantAgents priority = c :: rest) :
    autoAssignAgent tenantAgents tickets tenantId priority =
      some (selectLeastBy (loadOf tickets tenantId) c (c :: rest)).userId := by
  have hmem : c ∈ tenantAgents :=
    candidateAgents_subset tenantAgents priority c
      (hc ▸ List.mem_cons_self c rest)
  have hne : tenantAgents.isEmpty = false := by
    cases tenantAgents with
    | nil => cases hmem
    | cons a as => rfl
  unfold autoAssignAgent
  rw [hne]
  simp only [Bool.false_eq_true, if_false, hc]
  rfl

theorem selectLeastBy_mem_self (key : AgentRec → Nat) (c : AgentRec)
    (rest : List AgentRec) : selectLeastBy key c (c :: rest) ∈ c :: rest := by
  rcases List.mem_cons.mp (selectLeastBy_mem key c (c :: rest)) with h | h
  · rw [h]; exact List.mem_cons_self c rest
  · exact h

theorem selectLeastBy_min_self (key : AgentRec → Nat) (c : AgentRec)
    (rest : List AgentRec) :
    ∀ a ∈ c :: rest, key (selectLeastBy key c (c :: rest)) ≤ key a :=
  fun a ha =>
    selectLeastBy_min key c (c :: rest) a (List.mem_cons_of_mem c ha)

theorem selectLeastBy_find_self (key : AgentRec → Nat) (c : AgentRec)
    (rest : List AgentRec) :
    (c :: rest).find?
        (fun a => key a == key (selectLeastBy key c (c :: rest))) =
      some (selectLeastBy key c (c :: rest)) := by
  have h := selectLeastBy_eq_find key (c :: rest) c
  rw [← selectLeastBy_key_eq_minKey key c (c :: rest)] at h
  rw [← find?_cons_dup
    (fun a => key a == key (selectLeastBy key c (c :: rest))) c rest]
  exact h

/-- C7: for every non-empty candidate pool the selector returns an agent of
minimal load, and when several candidates share the minimal load the first
one in input order wins (the returned agent is the first whose load equals
the selected load); the selector is a pure function, so identical inputs
give identical outputs. -/
theorem autoAssign_least_loaded_first_wins
    (tenantAgents : List AgentRec) (tickets : List TicketRec) (tenantId : Nat)
    (priority : Option Priority) (c : AgentRec) (rest : List AgentRec)
    (hc : candidateAgents tenantAgents priority = c :: rest) :
    ∃ sel : AgentRec,
      autoAssignAgent tenantAgents tickets tenantId priority =
        some sel.userId ∧
      sel ∈ candidateAgents tenantAgents priority ∧
      (∀ a ∈ candidateAgents tenantAgents priority,
        loadOf tickets tenantId sel ≤ loadOf tickets tenantId a) ∧
      (candidateAgents tenantAgents priority).find?
        (fun a => loadOf tickets tenantId a == loadOf tickets tenantId sel) =
        some sel := by
  refine ⟨selectLeastBy (loadOf tickets tenantId) c (c :: rest),
    autoAssign_eq_of_cands _ _ _ _ _ _ hc, ?_, ?_, ?_⟩
  · rw [hc]; exact selectLeastBy_mem_self _ c rest
  · intro a ha
    rw [hc] at ha
    exact selectLeastBy_min_self _ c rest a ha
  · rw [hc]; exact selectLeastBy_find_self _ c rest

/-- Witness for C7: with eligible agents A (`userId 1`, load 2) and
B (`userId 2`, load 0), selection returns B. -/
theorem autoAssign_least_loaded_first_wins_witness :
    (∃ sel : AgentRec,
      autoAssignAgent
        [⟨1, 0, AgentLevel.agent, 2, 0⟩, ⟨2, 0, AgentLevel.agent, 0, 0⟩]
        [⟨0, Priority.Low, Status.Open, some 1, none, none, 0, 0, none,
          none, none, none, none, none, none⟩,
         ⟨0, Priority.Low, Status.InProgress, some 1, none, none, 0, 0, none,
          none, none, none, none, none, none⟩]
        0 (some Priority.Medium) = some sel.userId ∧
      sel ∈ candidateAgents
        [⟨1, 0, AgentLevel.agent, 2, 0⟩, ⟨2, 0, AgentLevel.agent, 0, 0⟩]
        (some Priority.Medium) ∧
      (∀ a ∈ candidateAgents
          [⟨1, 0, AgentLevel.agent, 2, 0⟩, ⟨2, 0, AgentLevel.agent, 0, 0⟩]
          (some Priority.Medium),
        loadOf
          [⟨0, Priority.Low, Status.Open, some 1, none, none, 0, 0, none,
            none, none, none, none, none, none⟩,
           ⟨0, Priority.Low, Status.InProgress, some 1, none, none, 0, 0,
            none, none, none, none, none, none, none⟩] 0 sel ≤
        loadOf
          [⟨0, Priority.Low, Status.Open, some 1, none, none, 0, 0, none,
            none, none, none, none, none, none⟩,
           ⟨0, Priority.Low, Status.InProgress, some 1, none, none, 0, 0,
            none, none, none, none, none, none, none⟩] 0 a) ∧
      (candidateAgents
          [⟨1, 0, AgentLevel.agent, 2, 0⟩, ⟨2, 0, AgentLevel.agent, 0, 0⟩]
          (some Priority.Medium)).find?
        (fun a =>
          loadOf
            [⟨0, Priority.Low, Status.Open, some 1, none, none, 0, 0, none,
              none, none, none, none, none, none⟩,
             ⟨0, Priority.Low, Status.InProgress, some 1, none, none, 0, 0,
              none, none, none, none, none, none, none⟩] 0 a ==
          loadOf
            [⟨0, Priority.Low, Status.Open, some 1, none, none, 0, 0, none,
              none, none, none, none, none, none⟩,
             ⟨0, Priority.Low, Status.InProgress, some 1, none, none, 0, 0,
              none, none, none, none, none, none, none⟩] 0 sel) =
        some sel) ∧
    autoAssignAgent
      [⟨1, 0, AgentLevel.agent, 2, 0⟩, ⟨2, 0, AgentLevel.agent, 0, 0⟩]
      [⟨0, Priority.Low, Status.Open, some 1, none, none, 0, 0, none, none,
        none, none, none, none, none⟩,
       ⟨0, Priority.Low, Status.InProgress, some 1, none, none, 0, 0, none,
        none, none, none, none, none, none⟩]
      0 (some Priority.Medium) = some 2 :=
  ⟨autoAssign_least_loaded_first_wins _ _ 0 (some Priority.Medium)
    ⟨1, 0, AgentLevel.agent, 2, 0⟩ [⟨2, 0, AgentLevel.agent, 0, 0⟩] rfl,
   by decide⟩

/-- C1 (amended): a Critical-priority assignment returns a supervisor-tier
agent whenever the pool has one, otherwise a senior-agent; it never returns
an `agent`-tier or `management`-tier agent.  (The source prefers supervisors
for Critical — the opposite of the claim's "senior-agent only".) -/
theorem autoAssign_critical_supervisor_or_senior
    (tenantAgents : List AgentRec) (tickets : List TicketRec)
    (tenantId uid : Nat)
    (h : autoAssignAgent tenantAgents tickets tenantId
      (some Priority.Critical) = some uid) :
    ∃ a ∈ tenantAgents, a.userId = uid ∧
      (a.agentLevel = AgentLevel.supervisor ∨
        a.agentLevel = AgentLevel.seniorAgent) ∧
      ((∃ s ∈ tenantAgents, s.agentLevel = AgentLevel.supervisor) →
        a.agentLevel = AgentLevel.supervisor) := by
  obtain ⟨c, rest, hc, huid⟩ := autoAssign_eq_some _ _ _ _ _ h
  set sel := selectLeastBy (loadOf tickets tenantId) c (c :: rest)
    with hseldef
  have hmem : sel ∈ c :: rest := selectLeastBy_mem_self _ c rest
  rw [← hc] at hmem
  simp only [candidateAgents] at hmem
  cases hs : (tenantAgents.filter
      (fun a => a.agentLevel == AgentLevel.supervisor)).isEmpty with
  | true =>
    rw [hs] at hmem
    simp only [if_true] at hmem
    obtain ⟨hin, hlev⟩ := List.mem_filter.mp hmem
    have hlev' : sel.agentLevel = AgentLevel.seniorAgent := by
      simpa using hlev
    refine ⟨sel, hin, huid.symm, Or.inr hlev', ?_⟩
    rintro ⟨s, hsmem, hslev⟩
    have hsin : s ∈ tenantAgents.filter
        (fun a => a.agentLevel == AgentLevel.supervisor) :=
      List.mem_filter.mpr ⟨hsmem, by simp [hslev]⟩
    rw [List.isEmpty_iff.mp hs] at hsin
    cases hsin
  | false =>
    rw [hs] at hmem
    simp only [Bool.false_eq_true, if_false] at hmem
    obtain ⟨hin, hlev⟩ := List.mem_filter.mp hmem
    have hlev' : sel.agentLevel = AgentLevel.supervisor := by
      simpa using hlev
    exact ⟨sel, hin, huid.symm, Or.inl hlev', fun _ => hlev'⟩

/-- Witness for C1 (amended): a pool with a single senior-agent gets the
senior-agent for a Critical ticket. -/
theorem autoAssign_critical_supervisor_or_senior_witness :
    ∃ a ∈ ([⟨1, 0, AgentLevel.seniorAgent, 0, 0⟩] : List AgentRec),
      a.userId = 1 ∧
      (a.agentLevel = AgentLevel.supervisor ∨
        a.agentLevel = AgentLevel.seniorAgent) ∧
      ((∃ s ∈ ([⟨1, 0, AgentLevel.seniorAgent, 0, 0⟩] : List AgentRec),
          s.agentLevel = AgentLevel.supervisor) →
        a.agentLevel = AgentLevel.supervisor) :=
  autoAssign_critical_supervisor_or_senior
    [⟨1, 0, AgentLevel.seniorAgent, 0, 0⟩] [] 0 1 (by decide)

/-- Counterexample to C1 as stated: a tenant pool holding a senior-agent
(`userId 1`, load 0) and a supervisor (`userId 2`, load 1); the selector
called with priority Critical returns `userId 2`, and the only pool agent
with `userId 2` is supervisor-tier, not senior-agent-tier. -/
theorem autoAssign_critical_returns_supervisor_cex :
    autoAssignAgent
      [⟨1, 0, AgentLevel.seniorAgent, 0, 0⟩,
       ⟨2, 0, AgentLevel.supervisor, 5, 0⟩]
      [⟨0, Priority.Low, Status.Open, some 2, none, none, 0, 0, none, none,
        none, none, none, none, none⟩]
      0 (some Priority.Critical) = some 2 ∧
    ∀ a ∈ ([⟨1, 0, AgentLevel.seniorAgent, 0, 0⟩,
            ⟨2, 0, AgentLevel.supervisor, 5, 0⟩] : List AgentRec),
      a.userId = 2 → a.agentLevel ≠ AgentLevel.seniorAgent := by decide

/-- C3 (amended): for Medium/Low priority the selector draws on the whole
tenant pool — every tier is eligible, including supervisor and management —
and returns a least-loaded pool member.  (The source applies no tier filter
for Medium/Low, contrary to the claim's "agent or senior-agent only".) -/
theorem autoAssign_medium_low_any_tier
    (tenantAgents : List AgentRec) (tickets : List TicketRec)
    (tenantId : Nat) (p : Option Priority) (uid : Nat)
    (hp : p = some Priority.Medium ∨ p = some Priority.Low)
    (h : autoAssignAgent tenantAgents tickets tenantId p = some uid) :
    ∃ a ∈ tenantAgents, a.userId = uid ∧
      ∀ b ∈ tenantAgents,
        loadOf tickets tenantId a ≤ loadOf tickets tenantId b := by
  have hcand : candidateAgents tenantAgents p = tenantAgents := by
    rcases hp with rfl | rfl <;> rfl
  obtain ⟨c, rest, hc, huid⟩ := autoAssign_eq_some _ _ _ _ _ h
  rw [hcand] at hc
  refine ⟨selectLeastBy (loadOf tickets tenantId) c (c :: rest), ?_,
    huid.symm, ?_⟩
  · rw [hc]; exact selectLeastBy_mem_self _ c rest
  · intro b hb
    rw [hc] at hb
    exact selectLeastBy_min_self _ c rest b hb

/-- Witness for C3 (amended): a Medium ticket in a pool of an `agent`-tier
agent at load 1 and a `management`-tier agent at load 0 goes to the
management-tier agent (`userId 2`). -/
theorem autoAssign_medium_low_any_tier_witness :
    ∃ a ∈ ([⟨1, 0, AgentLevel.agent, 1, 0⟩,
            ⟨2, 0, AgentLevel.management, 0, 0⟩] : List AgentRec),
      a.userId = 2 ∧
      ∀ b ∈ ([⟨1, 0, AgentLevel.agent, 1, 0⟩,
              ⟨2, 0, AgentLevel.management, 0, 0⟩] : List AgentRec),
        loadOf [⟨0, Priority.Low, Status.Open, some 1, none, none, 0, 0,
          none, none, none, none, none, none, none⟩] 0 a ≤
        loadOf [⟨0, Priority.Low, Status.Open, some 1, none, none, 0, 0,
          none, none, none, none, none, none, none⟩] 0 b :=
  autoAssign_medium_low_any_tier
    [⟨1, 0, AgentLevel.agent, 1, 0⟩, ⟨2, 0, AgentLevel.management, 0, 0⟩]
    [⟨0, Priority.Low, Status.Open, some 1, none, none, 0, 0, none, none,
      none, none, none, none, none⟩]
    0 (some Priority.Medium) 2 (Or.inl rfl) (by decide)

/-- Counterexample to C3 as stated: a tenant whose only agent is a
supervisor; the selector called with priority Medium returns that
supervisor (`userId 2`), which the claim says can never happen. -/
theorem autoAssign_medium_returns_supervisor_cex :
    autoAssignAgent [⟨2, 0, AgentLevel.supervisor, 0, 0⟩] [] 0
      (some Priority.Medium) = some 2 ∧
    ∀ a ∈ ([⟨2, 0, AgentLevel.supervisor, 0, 0⟩] : List AgentRec),
      a.userId = 2 → a.agentLevel = AgentLevel.supervisor := by decide

/-- C4 (amended): a Critical assignment in a tenant with zero senior-agents
AND zero supervisors returns `none` (the ticket stays unassigned); the
selector never falls back to `agent`- or `management`-tier agents.  (With a
supervisor present the source assigns the supervisor even when the tenant
has zero senior-agents, so the claim's "zero senior-agents ⇒ null" fails.) -/
theorem autoAssign_critical_no_eligible_none
    (tenantAgents : List AgentRec) (tickets : List TicketRec)
    (tenantId : Nat)
    (h : ∀ a ∈ tenantAgents, a.agentLevel ≠ AgentLevel.seniorAgent ∧
      a.agentLevel ≠ AgentLevel.supervisor) :
    autoAssignAgent tenantAgents tickets tenantId
      (some Priority.Critical) = none := by
  have hsup : tenantAgents.filter
      (fun a => a.agentLevel == AgentLevel.supervisor) = [] := by
    rw [List.filter_eq_nil_iff]
    intro a ha
    simpa using (h a ha).2
  have hsen : tenantAgents.filter
      (fun a => a.agentLevel == AgentLevel.seniorAgent) = [] := by
    rw [List.filter_eq_nil_iff]
    intro a ha
    simpa using (h a ha).1
  have hc : candidateAgents tenantAgents (some Priority.Critical) = [] := by
    simp [candidateAgents, hsup, hsen]
  unfold autoAssignAgent
  split
  · rfl
  · simp only [hc]

/-- Witness for C4 (amended): a pool of an `agent`-tier and a
`management`-tier agent yields no assignment for a Critical ticket. -/
theorem autoAssign_critical_no_eligible_none_witness :
    autoAssignAgent
      [⟨1, 0, AgentLevel.agent, 0, 0⟩, ⟨3, 0, AgentLevel.management, 0, 0⟩]
      [] 0 (some Priority.Critical) = none :=
  autoAssign_critical_no_eligible_none _ [] 0 (by decide)

/-- Counterexample to C4 as stated: a tenant with zero senior-agents whose
pool holds one supervisor; the Critical assignment returns `some 2` (the
supervisor), not `null`. -/
theorem autoAssign_critical_no_senior_not_null_cex :
    autoAssignAgent [⟨2, 0, AgentLevel.supervisor, 0, 0⟩] [] 0
      (some Priority.Critical) = some 2 ∧
    ∀ a ∈ ([⟨2, 0, AgentLevel.supervisor, 0, 0⟩] : List AgentRec),
      a.agentLevel ≠ AgentLevel.seniorAgent := by decide

/-! ### Escalation-scheduler theorems -/

theorem getLeastLoadedAgent_spec (agents : List AgentRec) (tenantId : Nat)
    (level : AgentLevel) (uid : Nat)
    (h : getLeastLoadedAgent agents tenantId level = some uid) :
    ∃ a ∈ agents, a.userId = uid ∧ a.tenantId = tenantId ∧
      a.agentLevel = level ∧
      ∀ b ∈ agents, b.tenantId = tenantId → b.agentLevel = level →
        a.ticketsAssigned ≤ b.ticketsAssigned := by
  unfold getLeastLoadedAgent at h
  cases hp : agents.filter
      (fun a => a.tenantId == tenantId && a.agentLevel == level) with
  | nil =>
    simp only [hp] at h
    exact Option.noConfusion h
  | cons c rest =>
    simp only [hp] at h
    set sel := selectLeastBy (fun a => a.ticketsAssigned) c (c :: rest)
      with hseldef
    have hmem : sel ∈ c :: rest := selectLeastBy_mem_self _ c rest
    rw [← hp] at hmem
    obtain ⟨hin, hcond⟩ := List.mem_filter.mp hmem
    have hten : sel.tenantId = tenantId := by
      simp only [Bool.and_eq_true, beq_iff_eq] at hcond
      exact hcond.1
    have hlev : sel.agentLevel = level := by
      simp only [Bool.and_eq_true, beq_iff_eq] at hcond
      exact hcond.2
    refine ⟨sel, hin, Option.some.inj h, hten, hlev, ?_⟩
    intro b hb hbten hblev
    have hbmem : b ∈ c :: rest := by
      rw [← hp]
      exact List.mem_filter.mpr ⟨hb, by simp [hbten, hblev]⟩
    exact selectLeastBy_min_self (fun a => a.ticketsAssigned) c rest b hbmem

theorem getLeastLoadedAgent_none (agents : List AgentRec) (tenantId : Nat)
    (level : AgentLevel)
    (h : ∀ a ∈ agents, a.tenantId = tenantId → a.agentLevel ≠ level) :
    getLeastLoadedAgent agents tenantId level = none := by
  have hp : agents.filter
      (fun a => a.tenantId == tenantId && a.agentLevel == level) = [] := by
    rw [List.filter_eq_nil_iff]
    intro a ha
    simp only [Bool.and_eq_true, beq_iff_eq, not_and]
    exact fun ht hl => h a ha ht hl
  unfold getLeastLoadedAgent
  simp only [hp]

theorem isUnresolvedAssigned_of (t : TicketRec)
    (hstatus : t.status = Status.Open ∨ t.status = Status.InProgress)
    (hassigned : t.agentId.isSome = true) :
    isUnresolvedAssigned t = true := by
  unfold isUnresolvedAssigned
  rcases hstatus with h | h <;> rw [h] <;> simp [hassigned]

/-- A run over a single scanned ticket is the per-ticket escalation step. -/
theorem runEscalation_singleton (hS hSup now : Int) (agents : List AgentRec)
    (t : TicketRec) (h : isUnresolvedAssigned t = true) :
    runEscalation hS hSup now agents [t] =
      ⟨(escalateTicket hS hSup now agents t).agents,
       [(escalateTicket hS hSup now agents t).ticket],
       (escalateTicket hS hSup now agents t).toSenior,
       (escalateTicket hS hSup now agents t).toSupervisor⟩ := by
  unfold runEscalation
  simp [h]

/-- C8: an assigned Open/In-Progress ticket at tier `agent` is untouched by
an escalation run while its time in tier is strictly below
`ThresholdToSenior` hours; once the threshold is reached and the tenant has
a senior-agent, the run reassigns the ticket to a least-loaded senior-agent
(decrementing the old agent's counter, incrementing the new one's), sets the
tier to `senior-agent`, resets the escalation timestamp to `now`, and the
run's `escalatedToSenior` tally for this ticket is 1. -/
theorem escalation_agent_tier_threshold
    (hoursToSenior hoursToSupervisor now : Int) (agents : List AgentRec)
    (t : TicketRec) (oldId : Nat)
    (hlevel : t.escalationLevel.getD AgentLevel.agent = AgentLevel.agent)
    (hstatus : t.status = Status.Open ∨ t.status = Status.InProgress)
    (hassigned : t.agentId = some oldId) :
    (now - t.escalatedAt.getD t.created < hoursToSenior * msPerHour →
      runEscalation hoursToSenior hoursToSupervisor now agents [t] =
        ⟨agents, [t], 0, 0⟩) ∧
    (now - t.escalatedAt.getD t.created ≥ hoursToSenior * msPerHour →
      ∀ uid, getLeastLoadedAgent agents t.tenantId AgentLevel.seniorAgent =
          some uid →
        runEscalation hoursToSenior hoursToSupervisor now agents [t] =
          ⟨incrementAssigned (decrementAssigned agents oldId) uid,
           [{ t with agentId := some uid,
                     escalationLevel := some AgentLevel.seniorAgent,
                     escalatedAt := some now, assignedAt := some now,
                     updated := now }],
           1, 0⟩ ∧
        ∃ a ∈ agents, a.userId = uid ∧ a.tenantId = t.tenantId ∧
          a.agentLevel = AgentLevel.seniorAgent ∧
          ∀ b ∈ agents, b.tenantId = t.tenantId →
            b.agentLevel = AgentLevel.seniorAgent →
            a.ticketsAssigned ≤ b.ticketsAssigned) := by
  have hunres : isUnresolvedAssigned t = true :=
    isUnresolvedAssigned_of t hstatus (by rw [hassigned]; rfl)
  have hrun := runEscalation_singleton hoursToSenior hoursToSupervisor now
    agents t hunres
  constructor
  · intro hlt
    have hesc : escalateTicket hoursToSenior hoursToSupervisor now agents t =
        ⟨agents, t, 0, 0⟩ := by
      simp only [escalateTicket]
      rw [if_pos hlevel, if_neg (not_le.mpr hlt)]
    rw [hrun, hesc]
  · intro hge uid huid
    have hesc : escalateTicket hoursToSenior hoursToSupervisor now agents t =
        ⟨incrementAssigned (decrementAssigned agents oldId) uid,
         { t with agentId := some uid,
                  escalationLevel := some AgentLevel.seniorAgent,
                  escalatedAt := some now, assignedAt := some now,
                  updated := now },
         1, 0⟩ := by
      simp only [escalateTicket]
      rw [if_pos hlevel, if_pos hge]
      simp only [huid, hassigned]
    refine ⟨?_, getLeastLoadedAgent_spec agents t.tenantId
      AgentLevel.seniorAgent uid huid⟩
    rw [hrun, hesc]

/-- Witness for C8: with thresholds 24h/48h, an agent-tier ticket created at
time 0 is untouched at `now = 24h - 1ms` and is escalated at exactly
`now = 24h` to the tenant's senior-agent (`userId 2`), with the tally 1. -/
theorem escalation_agent_tier_threshold_witness :
    runEscalation 24 48 86399999
      [⟨1, 0, AgentLevel.agent, 1, 0⟩, ⟨2, 0, AgentLevel.seniorAgent, 0, 0⟩]
      [⟨0, Priority.Low, Status.Open, some 1, none, none, 0, 0, none, none,
        none, none, none, none, none⟩] =
      ⟨[⟨1, 0, AgentLevel.agent, 1, 0⟩,
        ⟨2, 0, AgentLevel.seniorAgent, 0, 0⟩],
       [⟨0, Priority.Low, Status.Open, some 1, none, none, 0, 0, none, none,
         none, none, none, none, none⟩], 0, 0⟩ ∧
    runEscalation 24 48 86400000
      [⟨1, 0, AgentLevel.agent, 1, 0⟩, ⟨2, 0, AgentLevel.seniorAgent, 0, 0⟩]
      [⟨0, Priority.Low, Status.Open, some 1, none, none, 0, 0, none, none,
        none, none, none, none, none⟩] =
      ⟨incrementAssigned
        (decrementAssigned
          [⟨1, 0, AgentLevel.agent, 1, 0⟩,
           ⟨2, 0, AgentLevel.seniorAgent, 0, 0⟩] 1) 2,
       [{ (⟨0, Priority.Low, Status.Open, some 1, none, none, 0, 0, none,
            none, none, none, none, none, none⟩ : TicketRec) with
          agentId := some 2,
          escalationLevel := some AgentLevel.seniorAgent,
          escalatedAt := some 86400000, assignedAt := some 86400000,
          updated := 86400000 }],
       1, 0⟩ :=
  ⟨(escalation_agent_tier_threshold 24 48 86399999
      [⟨1, 0, AgentLevel.agent, 1, 0⟩, ⟨2, 0, AgentLevel.seniorAgent, 0, 0⟩]
      ⟨0, Priority.Low, Status.Open, some 1, none, none, 0, 0, none, none,
        none, none, none, none, none⟩ 1 rfl (Or.inl rfl) rfl).1 (by decide),
   ((escalation_agent_tier_threshold 24 48 86400000
      [⟨1, 0, AgentLevel.agent, 1, 0⟩, ⟨2, 0, AgentLevel.seniorAgent, 0, 0⟩]
      ⟨0, Priority.Low, Status.Open, some 1, none, none, 0, 0, none, none,
        none, none, none, none, none⟩ 1 rfl (Or.inl rfl) rfl).2 (by decide)
      2 (by decide)).1⟩

/-- C10: a scanned ticket whose escalation target tier (senior-agent for
tier `agent`, supervisor for tier `senior-agent`) has no agent in the
ticket's tenant is left completely untouched by the run — same
`agentId`, tier, escalation timestamp and status — and the agent
collection and both tallies are unchanged. -/
theorem escalation_empty_target_pool_untouched
    (hoursToSenior hoursToSupervisor now : Int) (agents : List AgentRec)
    (t : TicketRec)
    (hstatus : t.status = Status.Open ∨ t.status = Status.InProgress)
    (hassigned : t.agentId.isSome = true)
    (hempty :
      (t.escalationLevel.getD AgentLevel.agent = AgentLevel.agent ∧
        ∀ a ∈ agents, a.tenantId = t.tenantId →
          a.agentLevel ≠ AgentLevel.seniorAgent) ∨
      (t.escalationLevel.getD AgentLevel.agent = AgentLevel.seniorAgent ∧
        ∀ a ∈ agents, a.tenantId = t.tenantId →
          a.agentLevel ≠ AgentLevel.supervisor)) :
    runEscalation hoursToSenior hoursToSupervisor now agents [t] =
      ⟨agents, [t], 0, 0⟩ := by
  have hunres : isUnresolvedAssigned t = true :=
    isUnresolvedAssigned_of t hstatus hassigned
  rw [runEscalation_singleton hoursToSenior hoursToSupervisor now agents t
    hunres]
  rcases hempty with ⟨hlev, hno⟩ | ⟨hlev, hno⟩
  · have hesc : escalateTicket hoursToSenior hoursToSupervisor now agents t =
        ⟨agents, t, 0, 0⟩ := by
      simp only [escalateTicket]
      rw [if_pos hlev]
      by_cases hge : now - t.escalatedAt.getD t.created ≥
          hoursToSenior * msPerHour
      · rw [if_pos hge]
        simp only [getLeastLoadedAgent_none agents t.tenantId
          AgentLevel.seniorAgent hno]
      · rw [if_neg hge]
    rw [hesc]
  · have hesc : escalateTicket hoursToSenior hoursToSupervisor now agents t =
        ⟨agents, t, 0, 0⟩ := by
      simp only [escalateTicket]
      rw [if_neg (by rw [hlev]; exact fun hh => AgentLevel.noConfusion hh),
        if_pos hlev]
      by_cases hge : now - t.escalatedAt.getD t.created ≥
          hoursToSupervisor * msPerHour
      · rw [if_pos hge]
        simp only [getLeastLoadedAgent_none agents t.tenantId
          AgentLevel.supervisor hno]
      · rw [if_neg hge]
    rw [hesc]

/-- Witness for C10: a long-stale agent-tier ticket in a tenant with no
senior-agent is untouched by the run. -/
theorem escalation_empty_target_pool_untouched_witness :
    runEscalation 24 48 1000000000
      [⟨1, 0, AgentLevel.agent, 1, 0⟩]
      [⟨0, Priority.Low, Status.Open, some 1, none, none, 0, 0, none, none,
        none, none, none, none, none⟩] =
      ⟨[⟨1, 0, AgentLevel.agent, 1, 0⟩],
       [⟨0, Priority.Low, Status.Open, some 1, none, none, 0, 0, none, none,
         none, none, none, none, none⟩], 0, 0⟩ :=
  escalation_empty_target_pool_untouched 24 48 1000000000
    [⟨1, 0, AgentLevel.agent, 1, 0⟩]
    ⟨0, Priority.Low, Status.Open, some 1, none, none, 0, 0, none, none,
      none, none, none, none, none⟩
    (Or.inl rfl) rfl (Or.inl ⟨rfl, by decide⟩)

/-! ### Ticket-lifecycle theorems (`PUT /api/tickets/:id`,
`POST /api/tickets/:id/client-feedback`) -/

/-- C6: a status update to Closed on a not-yet-closed ticket with no
recorded client feedback, from a caller whose role is neither super-admin
nor tenant-admin, is rejected with the closed-without-feedback error — an
early return, so the stored ticket is unchanged; with recorded feedback
(on the ticket or in the body) or an elevated caller, the close is
permitted and the resulting ticket's status is Closed.  (The spec files
this rejection under its `PermissionDenied` taxonomy; the route maps it to
an HTTP 400 with the "cannot be closed without client feedback" message.) -/
theorem close_requires_feedback_or_elevated_role
    (agents : List AgentRec) (ticket : TicketRec) (user : UserRec)
    (body : UpdateBody) (now : Int) (freshToken : Nat)
    (htenant : ¬(user.role ≠ Role.superAdmin ∧
      user.tenantId ≠ some ticket.tenantId))
    (hstatus : body.status = some Status.Closed)
    (hold : ticket.status ≠ Status.Closed)
    (hagent : body.agentId = none) :
    (user.role ≠ Role.superAdmin → user.role ≠ Role.tenantAdmin →
      ticket.clientFeedback = none → body.clientFeedback = none →
      updateTicket agents ticket user body now freshToken =
        Except.error ApiError.closedWithoutFeedback) ∧
    ((ticket.clientFeedback.isSome = true ∨
        body.clientFeedback.isSome = true ∨
        user.role = Role.superAdmin ∨ user.role = Role.tenantAdmin) →
      ∃ t' agents', updateTicket agents ticket user body now freshToken =
        Except.ok (t', agents') ∧ t'.status = Status.Closed) := by
  constructor
  · intro h1 h2 h3 h4
    unfold updateTicket
    rw [if_neg htenant]
    rw [if_neg (show ¬((body.agentId.isSome = true ∧
        body.agentId ≠ ticket.agentId) ∧
        ¬hasPermission agents user (fun p => p.canAssignTickets) = true) from
      fun hh => by rw [hagent] at hh; exact absurd hh.1.1 (by simp))]
    rw [if_pos (show (body.status = some Status.Closed ∧
        ticket.status ≠ Status.Closed) ∧
        ¬(user.role = Role.superAdmin ∨ user.role = Role.tenantAdmin) ∧
        ¬(ticket.clientFeedback.isSome = true ∨
          body.clientFeedback.isSome = true) from
      ⟨⟨hstatus, hold⟩, fun hor => hor.elim h1 h2,
       fun hor => hor.elim
         (fun hh => by rw [h3] at hh; exact absurd hh (by simp))
         (fun hh => by rw [h4] at hh; exact absurd hh (by simp))⟩)]
  · intro h
    unfold updateTicket
    rw [if_neg htenant]
    rw [if_neg (show ¬((body.agentId.isSome = true ∧
        body.agentId ≠ ticket.agentId) ∧
        ¬hasPermission agents user (fun p => p.canAssignTickets) = true) from
      fun hh => by rw [hagent] at hh; exact absurd hh.1.1 (by simp))]
    rw [if_neg (show ¬((body.status = some Status.Closed ∧
        ticket.status ≠ Status.Closed) ∧
        ¬(user.role = Role.superAdmin ∨ user.role = Role.tenantAdmin) ∧
        ¬(ticket.clientFeedback.isSome = true ∨
          body.clientFeedback.isSome = true)) from ?_)]
    rotate_left
    · rcases h with h | h | h | h
      · exact fun hh => hh.2.2 (Or.inl h)
      · exact fun hh => hh.2.2 (Or.inr h)
      · exact fun hh => hh.2.1 (Or.inl h)
      · exact fun hh => hh.2.1 (Or.inr h)
    · have hsc : some Status.Closed ≠ some ticket.status := by
        intro hh
        exact hold (Option.some.inj hh).symm
      simp only [hagent, hstatus, Option.isSome_none, Option.isSome_some,
        Bool.false_eq_true, false_and, if_false, true_and, ne_eq, hsc,
        not_false_iff, if_true, hold, reduceCtorEq, or_true, false_or]
      refine ⟨_, _, rfl, ?_⟩
      simp [assignBody, hstatus]

/-- Witness for C6: an `agent`-role caller cannot close an Open ticket that
has no feedback, while a tenant-admin can. -/
theorem close_requires_feedback_or_elevated_role_witness :
    updateTicket [⟨1, 0, AgentLevel.agent, 1, 0⟩]
      ⟨0, Priority.Low, Status.Open, some 1, none, none, 0, 0, none, none,
        none, none, none, none, none⟩
      ⟨1, Role.agent, some 0⟩
      ⟨some Status.Closed, none, none, none⟩ 100 99 =
      Except.error ApiError.closedWithoutFeedback ∧
    (∃ t' agents', updateTicket [⟨1, 0, AgentLevel.agent, 1, 0⟩]
      ⟨0, Priority.Low, Status.Open, some 1, none, none, 0, 0, none, none,
        none, none, none, none, none⟩
      ⟨5, Role.tenantAdmin, some 0⟩
      ⟨some Status.Closed, none, none, none⟩ 100 99 =
      Except.ok (t', agents') ∧ t'.status = Status.Closed) :=
  ⟨(close_requires_feedback_or_elevated_role
      [⟨1, 0, AgentLevel.agent, 1, 0⟩]
      ⟨0, Priority.Low, Status.Open, some 1, none, none, 0, 0, none, none,
        none, none, none, none, none⟩
      ⟨1, Role.agent, some 0⟩
      ⟨some Status.Closed, none, none, none⟩ 100 99
      (by decide) rfl (by decide) rfl).1
      (by decide) (by decide) rfl rfl,
   (close_requires_feedback_or_elevated_role
      [⟨1, 0, AgentLevel.agent, 1, 0⟩]
      ⟨0, Priority.Low, Status.Open, some 1, none, none, 0, 0, none, none,
        none, none, none, none, none⟩
      ⟨5, Role.tenantAdmin, some 0⟩
      ⟨some Status.Closed, none, none, none⟩ 100 99
      (by decide) rfl (by decide) rfl).2
      (Or.inr (Or.inr (Or.inr rfl)))⟩

theorem updateFirstAgent_congr (agents : List AgentRec) (uid : Nat)
    (f g : AgentRec → AgentRec) (h : ∀ a, f a = g a) :
    updateFirstAgent agents uid f = updateFirstAgent agents uid g := by
  induction agents with
  | nil => rfl
  | cons a rest ih =>
    unfold updateFirstAgent
    rw [h a, ih]

/-- C9 (amended): a reopen performed through a status update
(`PUT /api/tickets/:id` with Resolved/Closed → In Progress) increments the
assigned agent's open-ticket counter by exactly 1, decrements the resolved
counter by exactly 1 flooring at 0 (on `Nat` this is truncated
subtraction), and clears `resolvedBy`/`resolvedAt`.  A reopen via
dissatisfied client feedback does none of this — see the counterexample. -/
theorem reopen_status_update_restores_counters
    (agents : List AgentRec) (ticket : TicketRec) (user : UserRec)
    (body : UpdateBody) (now : Int) (freshToken : Nat) (aid : Nat)
    (htenant : ¬(user.role ≠ Role.superAdmin ∧
      user.tenantId ≠ some ticket.tenantId))
    (hold : ticket.status = Status.Resolved ∨ ticket.status = Status.Closed)
    (hbody : body.status = some Status.InProgress)
    (hagent : body.agentId = none)
    (hassigned : ticket.agentId = some aid) :
    ∃ t' agents', updateTicket agents ticket user body now freshToken =
      Except.ok (t', agents') ∧
      t'.status = Status.InProgress ∧ t'.resolvedBy = none ∧
      t'.resolvedAt = none ∧ t'.agentId = some aid ∧
      agents' = updateFirstAgent agents aid (fun ag =>
        { ag with resolved := ag.resolved - 1,
                  ticketsAssigned := ag.ticketsAssigned + 1 }) := by
  have hne : some Status.InProgress ≠ some ticket.status := by
    rcases hold with hh | hh <;> rw [hh] <;> simp
  unfold updateTicket
  rw [if_neg htenant]
  rw [if_neg (show ¬((body.agentId.isSome = true ∧
      body.agentId ≠ ticket.agentId) ∧
      ¬hasPermission agents user (fun p => p.canAssignTickets) = true) from
    fun hh => by rw [hagent] at hh; exact absurd hh.1.1 (by simp))]
  rw [if_neg (show ¬((body.status = some Status.Closed ∧
      ticket.status ≠ Status.Closed) ∧
      ¬(user.role = Role.superAdmin ∨ user.role = Role.tenantAdmin) ∧
      ¬(ticket.clientFeedback.isSome = true ∨
        body.clientFeedback.isSome = true)) from
    fun hh => by rw [hbody] at hh; exact absurd hh.1.1 (by simp))]
  simp only [hagent, hbody, hassigned, Option.isSome_none,
    Option.isSome_some, Bool.false_eq_true, false_and, if_false, true_and,
    ne_eq, hne, not_false_iff, if_true, reduceCtorEq, or_false, false_or,
    and_false, and_true, assignBody, Option.getD_some, Option.some.injEq]
  rw [if_pos hold]
  refine ⟨_, _, rfl, rfl, rfl, rfl, rfl, ?_⟩
  refine updateFirstAgent_congr agents aid _ _ ?_
  intro a
  by_cases hr : a.resolved > 0
  · simp [hr]
  · have h0 : a.resolved = 0 := by omega
    simp [hr, h0]

/-- Witness for C9 (amended): reopening a Resolved ticket assigned to agent
`userId 1` (counter 0, resolved 1) yields counter 1, resolved 0, and clears
the resolution stamps. -/
theorem reopen_status_update_restores_counters_witness :
    ∃ t' agents',
      updateTicket [⟨1, 0, AgentLevel.agent, 0, 1⟩]
        ⟨0, Priority.Low, Status.Resolved, some 1, none, none, 0, 0, none,
          some 9, some 50, none, none, none, some 7⟩
        ⟨5, Role.tenantAdmin, some 0⟩
        ⟨some Status.InProgress, none, none, none⟩ 100 99 =
        Except.ok (t', agents') ∧
      t'.status = Status.InProgress ∧ t'.resolvedBy = none ∧
      t'.resolvedAt = none ∧ t'.agentId = some 1 ∧
      agents' = updateFirstAgent [⟨1, 0, AgentLevel.agent, 0, 1⟩] 1
        (fun ag =>
          { ag with resolved := ag.resolved - 1,
                    ticketsAssigned := ag.ticketsAssigned + 1 }) :=
  reopen_status_update_restores_counters
    [⟨1, 0, AgentLevel.agent, 0, 1⟩]
    ⟨0, Priority.Low, Status.Resolved, some 1, none, none, 0, 0, none,
      some 9, some 50, none, none, none, some 7⟩
    ⟨5, Role.tenantAdmin, some 0⟩
    ⟨some Status.InProgress, none, none, none⟩ 100 99 1
    (by decide) (Or.inl rfl) rfl rfl rfl

/-- Counterexample to C9 as stated: a dissatisfied client-feedback
submission on a Resolved ticket assigned to agent `userId 1` reopens the
ticket to In Progress but leaves `resolvedBy = some 9`,
`resolvedAt = some 50` uncleared and the agent record unchanged — the
open-ticket counter is not incremented and the resolved counter is not
decremented. -/
theorem feedback_reopen_no_bookkeeping_cex :
    (clientFeedbackRoute [⟨1, 0, AgentLevel.agent, 0, 1⟩]
      ⟨0, Priority.Low, Status.Resolved, some 1, none, none, 0, 0, none,
        some 9, some 50, none, none, none, some 7⟩
      7 (some Feedback.dissatisfied) none 100).toOption.map
      (fun p => (p.1.status, p.1.resolvedBy, p.1.resolvedAt, p.2)) =
      some (Status.InProgress, some 9, some 50,
        [⟨1, 0, AgentLevel.agent, 0, 1⟩]) := by decide

/-- C5 (amended): the feedback token is not invalidated by use.  A
successful client-feedback submission leaves `metadata.feedbackToken`
unchanged, so a later submission presenting the same token and any valid
verdict is accepted again; the token is only ever replaced when a later
transition to Resolved issues a fresh one. -/
theorem feedback_token_survives_use
    (t : TicketRec) (tok : Nat) (fb : Option Feedback) (note : Option Nat)
    (now : Int) (t' : TicketRec)
    (h : clientFeedbackSubmit t tok fb note now = Except.ok t') :
    t'.feedbackToken = t.feedbackToken ∧
    ∀ v : Feedback, ∀ note2 : Option Nat, ∀ now2 : Int,
      (clientFeedbackSubmit t' tok (some v) note2 now2).toOption.isSome =
        true := by
  cases hft : t.feedbackToken with
  | none =>
    unfold clientFeedbackSubmit at h
    simp only [hft] at h
    exact Except.noConfusion h
  | some stored =>
    unfold clientFeedbackSubmit at h
    simp only [hft] at h
    by_cases htok : tok ≠ stored
    · rw [if_pos htok] at h
      exact Except.noConfusion h
    · rw [if_neg htok] at h
      cases fb with
      | none => exact Except.noConfusion h
      | some fbv =>
        have hbuilt := Except.ok.inj h
        have h1 : t'.feedbackToken = some stored := by
          rw [← hbuilt]
          cases fbv <;> rfl
        refine ⟨h1, ?_⟩
        intro v note2 now2
        unfold clientFeedbackSubmit
        simp only [h1]
        rw [if_neg htok]
        cases v <;> rfl

/-- Witness for C5 (amended): after a satisfied submission with token 7 the
token is still 7 and a dissatisfied resubmission with token 7 is accepted
(reopening the closed ticket). -/
theorem feedback_token_survives_use_witness :
    (⟨0, Priority.Low, Status.Closed, some 1, none, none, 0, 10, none,
      some 9, some 10, some Feedback.satisfied, some 10, none,
      some 7⟩ : TicketRec).feedbackToken =
      (⟨0, Priority.Low, Status.Resolved, some 1, none, none, 0, 0, none,
        some 9, some 50, none, none, none, some 7⟩ : TicketRec).feedbackToken ∧
    (clientFeedbackSubmit
      ⟨0, Priority.Low, Status.Closed, some 1, none, none, 0, 10, none,
        some 9, some 10, some Feedback.satisfied, some 10, none, some 7⟩
      7 (some Feedback.dissatisfied) none 20).toOption.isSome = true :=
  ⟨(feedback_token_survives_use
      ⟨0, Priority.Low, Status.Resolved, some 1, none, none, 0, 0, none,
        some 9, some 50, none, none, none, some 7⟩
      7 (some Feedback.satisfied) none 10
      ⟨0, Priority.Low, Status.Closed, some 1, none, none, 0, 10, none,
        some 9, some 10, some Feedback.satisfied, some 10, none, some 7⟩
      rfl).1,
   (feedback_token_survives_use
      ⟨0, Priority.Low, Status.Resolved, some 1, none, none, 0, 0, none,
        some 9, some 50, none, none, none, some 7⟩
      7 (some Feedback.satisfied) none 10
      ⟨0, Priority.Low, Status.Closed, some 1, none, none, 0, 10, none,
        some 9, some 10, some Feedback.satisfied, some 10, none, some 7⟩
      rfl).2 Feedback.dissatisfied none 20⟩

/-- Counterexample to C5 as stated: ticket with token 7; a satisfied
submission with token 7 is accepted, and a second submission presenting the
very same token is accepted again (both return 200-success), so the token
is not single-use. -/
theorem feedback_token_reuse_accepted_cex :
    ((clientFeedbackSubmit
        ⟨0, Priority.Low, Status.Resolved, some 1, none, none, 0, 0, none,
          some 9, some 50, none, none, none, some 7⟩
        7 (some Feedback.satisfied) none 10).toOption.map
      (fun _ => true)).getD false = true ∧
    (((clientFeedbackSubmit
        ⟨0, Priority.Low, Status.Resolved, some 1, none, none, 0, 0, none,
          some 9, some 50, none, none, none, some 7⟩
        7 (some Feedback.satisfied) none 10).toOption.bind
      (fun t' => (clientFeedbackSubmit t' 7 (some Feedback.satisfied) none
        20).toOption)).map (fun _ => true)).getD false = true := by decide

/-- C2 is a code bug: the invariant "per-tenant sum of agent
open-ticket counters = number of the tenant's Open/In-Progress assigned
tickets" holds before a dissatisfied client-feedback submission on a
Resolved assigned ticket (both sides 0) and is broken by it: the ticket
returns to In Progress (count 1) but the route performs no agent-counter
bookkeeping, so the sum stays 0. -/
theorem feedback_reopen_breaks_load_invariant :
    loadInvariant [⟨1, 0, AgentLevel.agent, 0, 1⟩]
      [⟨0, Priority.Low, Status.Resolved, some 1, none, none, 0, 0, none,
        some 9, some 50, none, none, none, some 7⟩] 0 ∧
    clientFeedbackRoute [⟨1, 0, AgentLevel.agent, 0, 1⟩]
      ⟨0, Priority.Low, Status.Resolved, some 1, none, none, 0, 0, none,
        some 9, some 50, none, none, none, some 7⟩
      7 (some Feedback.dissatisfied) none 100 =
      Except.ok
        (⟨0, Priority.Low, Status.InProgress, some 1, none, none, 0, 100,
          none, some 9, some 50, none, none, none, some 7⟩,
         [⟨1, 0, AgentLevel.agent, 0, 1⟩]) ∧
    ¬ loadInvariant [⟨1, 0, AgentLevel.agent, 0, 1⟩]
      [⟨0, Priority.Low, Status.InProgress, some 1, none, none, 0, 100,
        none, some 9, some 50, none, none, none, some 7⟩] 0 :=
  ⟨by decide, rfl, by decide⟩

end Helpdesk
